import Mathlib

/-!
Verification of the billing subscription engine: a shallow embedding of the
event processor (`billing/tasks.py`), the subscription command handlers
(`billing/views/api.py`), and — modelled from the specification where the
`models.py` source is unavailable — the state derivation function, the limit
resolution function and the storage-layer payment-state constraint.
-/

/-- Payment states of a Customer (`Customer.PaymentState`). -/
inductive PaymentState
  | OK
  | OFF
  | REQUIRES_PAYMENT_METHOD
  | ERROR
deriving DecidableEq, Repr

/-- Plan types (`Plan.Type`). -/
inductive PlanType
  | FREE_DEFAULT
  | FREE_PRIVATE
  | PAID_PUBLIC
deriving DecidableEq, Repr

/-- A billing plan: identity plus its type. -/
structure Plan where
  id : Nat
  type : PlanType
deriving DecidableEq, Repr

/-- Card summary stored on a Customer (`cc_info`): exactly the four fields
`brand`, `last4`, `exp_month`, `exp_year` that the processor keeps. -/
structure CCInfo where
  brand : String
  last4 : String
  exp_month : Nat
  exp_year : Nat
deriving DecidableEq, Repr

/-- A Customer row. `pk` is the database primary key; timestamps are integers. -/
structure Customer where
  pk : Nat
  subscription_id : Option String
  customer_id : Option String
  payment_state : PaymentState
  current_period_end : Option Int
  plan : Plan
  cc_info : Option CCInfo
deriving DecidableEq, Repr

/-- Status of a StripeEvent record (`StripeEvent.Status`). -/
inductive EventStatus
  | NEW
  | PENDING
  | PROCESSED
  | ERROR
deriving DecidableEq, Repr

/-- The fields of `event.payload["data"]["object"]` that `process_stripe_event`
reads. A `none` field models the key being absent from the JSON payload, in
which case the Python subscript raises and is caught by the processor. -/
structure PayloadObject where
  billing_reason : Option String := none
  subscription : Option String := none
  period_end : Option Int := none
  id : Option String := none
  status : Option String := none
  customer : Option String := none
  card : Option CCInfo := none
deriving DecidableEq, Repr

/-- A StripeEvent record. `payload = none` models a payload with no
`data.object`. -/
structure StripeEvent where
  id : String
  type : String
  payload : Option PayloadObject := none
  status : EventStatus := .NEW
  info : Option String := none
deriving DecidableEq, Repr

/-- Django `Customer.objects.get(...)`: succeeds only when exactly one row
matches; raises `DoesNotExist` when none match and `MultipleObjectsReturned`
when several do. -/
def objectsGet (p : Customer → Bool) (db : List Customer) : Except String Customer :=
  match db.filter p with
  | [] => .error "Customer matching query does not exist."
  | [c] => .ok c
  | _ :: _ :: _ => .error "get() returned more than one Customer."

/-- `customer.save()`: write the mutated row back by primary key. -/
def dbSave (db : List Customer) (c : Customer) : List Customer :=
  db.map fun x => if x.pk == c.pk then c else x

/-- Reading a JSON key that may be absent: absence raises a `KeyError`,
which the processor's catch-all converts into the ERROR status. -/
def requireKey {α : Type} (x : Option α) (key : String) : Except String α :=
  match x with
  | some v => .ok v
  | none => .error ("KeyError: " ++ key)

/-- The dispatch body of `process_stripe_event` (`billing/tasks.py` lines
24-100): everything inside the `try`. Returns the mutated customer table and
the event with its final status and diagnostic, or an exception as `.error`.
In the source no customer write precedes a statement that can raise within
the same branch, so returning the unmutated table on `.error` is faithful. -/
def dispatch (db : List Customer) (event : StripeEvent) :
    Except String (List Customer × StripeEvent) :=
  if event.type == "invoice.paid" then
    match requireKey event.payload "data.object" with
    | .error e => .error e
    | .ok invoice =>
      match requireKey invoice.billing_reason "billing_reason" with
      | .error e => .error e
      | .ok br =>
        if br == "subscription_cycle" then
          match requireKey invoice.subscription "subscription" with
          | .error e => .error e
          | .ok sid =>
            match objectsGet (fun c => c.subscription_id == some sid) db with
            | .error e => .error e
            | .ok c =>
              match requireKey invoice.period_end "lines.data.0.period.end" with
              | .error e => .error e
              | .ok pe =>
                .ok (dbSave db { c with current_period_end := some pe },
                     { event with status := .PROCESSED })
        else
          .ok (db, { event with
                     info := some "Subscription creation webhook. No action was taken.",
                     status := .PROCESSED })
  else if event.type == "customer.subscription.updated"
       || event.type == "customer.subscription.deleted" then
    match requireKey event.payload "data.object" with
    | .error e => .error e
    | .ok sub =>
      match requireKey sub.id "id" with
      | .error e => .error e
      | .ok sid =>
        match objectsGet (fun c => c.subscription_id == some sid) db with
        | .error e => .error e
        | .ok c =>
          match requireKey sub.status "status" with
          | .error e => .error e
          | .ok st =>
            if st == "past_due" then
              .ok (dbSave db { c with payment_state := .REQUIRES_PAYMENT_METHOD },
                   { event with status := .PROCESSED })
            else if st == "canceled" then
              .ok (dbSave db { c with subscription_id := none, payment_state := .OFF },
                   { event with status := .PROCESSED })
            else if st == "incomplete_expired" then
              .ok (dbSave db { c with subscription_id := none, payment_state := .OFF },
                   { event with status := .PROCESSED })
            else
              .ok (db, { event with
                         info := some "Payload \x27status\x27 is not actionable. No action was taken.",
                         status := .PROCESSED })
  else if event.type == "payment_method.automatically_updated" then
    match requireKey event.payload "data.object" with
    | .error e => .error e
    | .ok pm =>
      match requireKey pm.customer "customer" with
      | .error e => .error e
      | .ok cid =>
        match objectsGet (fun c => c.customer_id == some cid) db with
        | .error e => .error e
        | .ok c =>
          match requireKey pm.card "card" with
          | .error e => .error e
          | .ok card =>
            .ok (dbSave db { c with cc_info := some card },
                 { event with status := .PROCESSED })
  else
    .ok (db, { event with
               status := .ERROR,
               info := some ("StripeEvent type \x27" ++ event.type ++ "\x27 not recognized.") })

/-- `process_stripe_event` (`billing/tasks.py` lines 17-107): mark the event
PENDING, dispatch, catch every exception into the ERROR status with the
exception detail as the diagnostic, and always save the event before
returning. -/
def process_stripe_event (db : List Customer) (event : StripeEvent) :
    List Customer × StripeEvent :=
  let pending := { event with status := .PENDING }
  match dispatch db pending with
  | .ok (dbOut, e) => (dbOut, e)
  | .error msg => (db, { pending with status := .ERROR, info := some msg })

/-- Modelled from the spec: `Customer.state` lives in `billing/models.py`,
which is not among the available sources. Sub-rules for the FREE_DEFAULT
plan bucket, following the case table of the state derivation function
(spec section 4.1); these rules are also the fallback for a paid or
free-private plan whose period has lapsed. -/
def freeDefaultBucketState (ps : PaymentState) (cpe : Option Int)
    (sub : Option String) (now : Int) : String :=
  match ps, cpe with
  | .OFF, none =>
    if sub.isSome then "free_default.canceled.incomplete" else "free_default.new"
  | .OFF, some t =>
    if t ≤ now then "free_default.canceled" else "unknown"
  | .REQUIRES_PAYMENT_METHOD, none =>
    "free_default.incomplete.requires_payment_method"
  | .REQUIRES_PAYMENT_METHOD, some t =>
    if t ≤ now then "free_default.past_due.requires_payment_method" else "unknown"
  | _, _ => "unknown"

/-- Modelled from the spec: `deriveState` (`Customer.state` in
`billing/models.py`, not among the available sources), following the
precedence table of spec section 4.1 and the scenario pins of section 8:
a period is expired when `currentPeriodEnd ≤ now`; for PAID_PUBLIC an
absent period-end counts as expired (falling back to FREE_DEFAULT-bucket
rules) while for FREE_PRIVATE an absent period-end means indefinite; a
non-expired OFF paid customer reads `paid.will_cancel` while its
subscription reference is still present and `paid.canceled` once it has
been cleared. -/
def Customer.state (c : Customer) (now : Int) : String :=
  match c.plan.type with
  | .FREE_DEFAULT =>
    freeDefaultBucketState c.payment_state c.current_period_end c.subscription_id now
  | .PAID_PUBLIC =>
    match c.current_period_end with
    | none => freeDefaultBucketState c.payment_state none c.subscription_id now
    | some t =>
      if t ≤ now then
        if c.payment_state = .OFF then "free_default.canceled" else "paid.canceled"
      else
        match c.payment_state with
        | .OK => "paid.paying"
        | .OFF => if c.subscription_id.isSome then "paid.will_cancel" else "paid.canceled"
        | .REQUIRES_PAYMENT_METHOD => "paid.past_due.requires_payment_method"
        | .ERROR => "unknown"
  | .FREE_PRIVATE =>
    match c.current_period_end with
    | none => "free_private.indefinite"
    | some t =>
      if t ≤ now then
        freeDefaultBucketState c.payment_state (some t) c.subscription_id now
      else "free_private.will_expire"

/-- The closed set of state labels the derivation function may produce. -/
def stateLabels : List String :=
  [ "free_default.new"
  , "free_default.canceled.incomplete"
  , "free_default.canceled"
  , "free_default.incomplete.requires_payment_method"
  , "free_default.past_due.requires_payment_method"
  , "paid.paying"
  , "paid.will_cancel"
  , "paid.canceled"
  , "paid.past_due.requires_payment_method"
  , "free_private.indefinite"
  , "free_private.will_expire"
  , "unknown" ]

/-- A named Limit with its global default value. -/
structure Limit where
  name : String
  default : Int
deriving DecidableEq, Repr

/-- A per-plan override of one Limit. -/
structure PlanLimit where
  plan_id : Nat
  limit_name : String
  value : Int
deriving DecidableEq, Repr

/-- The tables that limit resolution reads. -/
structure BillingDb where
  plans : List Plan
  limits : List Limit
  plan_limits : List PlanLimit
deriving Repr

/-- Modelled from the spec: the expiry test limit resolution uses
(spec sections 4.1 and 4.2): a PAID_PUBLIC plan is expired when its
period-end has passed or is absent; a FREE_PRIVATE plan is expired when its
period-end has passed, but an absent period-end is indefinite, not expired;
the FREE_DEFAULT plan never expires. -/
def planExpired (c : Customer) (now : Int) : Bool :=
  match c.plan.type, c.current_period_end with
  | .PAID_PUBLIC, none => true
  | .PAID_PUBLIC, some t => decide (t ≤ now)
  | .FREE_PRIVATE, none => false
  | .FREE_PRIVATE, some t => decide (t ≤ now)
  | .FREE_DEFAULT, _ => false

/-- The unique system-wide FREE_DEFAULT plan. -/
def freeDefaultPlan (db : BillingDb) : Option Plan :=
  db.plans.find? (fun p => p.type == .FREE_DEFAULT)

/-- Modelled from the spec: the plan governing a customer's limits right now
(spec section 4.2 step 1): the FREE_DEFAULT plan when the customer's plan is
expired, the customer's own plan otherwise. -/
def effectivePlan (db : BillingDb) (c : Customer) (now : Int) : Plan :=
  if planExpired c now then (freeDefaultPlan db).getD c.plan else c.plan

/-- Modelled from the spec: `getLimit` (`Customer.get_limit` in
`billing/models.py`, not among the available sources), following spec
section 4.2: fail with `NotFoundError` when no Limit with the name exists
anywhere; otherwise return the PlanLimit value for (effectivePlan, name)
when one exists, else the Limit's global default. -/
def Customer.get_limit (db : BillingDb) (c : Customer) (limitName : String)
    (now : Int) : Except String Int :=
  match db.limits.find? (fun l => l.name == limitName) with
  | none => .error "Limit matching query does not exist."
  | some l =>
    let ep := effectivePlan db c now
    match db.plan_limits.find?
        (fun pl => pl.plan_id == ep.id && pl.limit_name == limitName) with
    | some pl => .ok pl.value
    | none => .ok l.default

/-- Modelled from the spec: the storage-layer check constraint on Customer
(`billing/models.py`, not among the available sources; spec section 3): a
write is accepted only when `paymentState = OFF` or `subscriptionId` is
present. -/
def paymentStateConstraint (c : Customer) : Bool :=
  c.payment_state == .OFF || c.subscription_id.isSome

/-- The data-model invariant of spec sections 3 and 8: `paymentState != OFF`
implies `subscriptionId` is present. -/
def customerInvariant (c : Customer) : Prop :=
  c.payment_state ≠ .OFF → c.subscription_id.isSome = true

instance (c : Customer) : Decidable (customerInvariant c) := by
  unfold customerInvariant; infer_instance

/-- The remote subscription object returned by the payment processor's
`Subscription.create`, as read by the create-subscription handler. -/
structure RemoteSubscription where
  id : String
  status : String
  current_period_end : Int
deriving DecidableEq, Repr

/-- `CreateSubscriptionAPIView.post`, `billing/views/api.py` lines 46-67:
the local mutation after the remote subscription has been created. Records
the subscription reference and plan; on remote status `active` sets
`payment_state = OK` and the period-end and succeeds; on any other remote
status sets `payment_state = REQUIRES_PAYMENT_METHOD`, clears the
period-end, and fails with a `ValidationError`. -/
def createSubscription (c : Customer) (plan : Plan) (sub : RemoteSubscription) :
    Customer × Except String Unit :=
  let c := { c with subscription_id := some sub.id, plan := plan }
  if sub.status == "active" then
    ({ c with current_period_end := some sub.current_period_end,
              payment_state := .OK }, .ok ())
  else
    ({ c with current_period_end := none,
              payment_state := .REQUIRES_PAYMENT_METHOD },
     .error "Payment could not be processed. Please try again or use another card.")

/-- The remote invoice returned by `stripe_retry_latest_invoice`, as read by
the cure-failed-card handler. -/
structure RetryInvoiceResult where
  status : String
  period_end : Int
deriving DecidableEq, Repr

/-- `CureFailedCardAPIView.post`, `billing/views/api.py` lines 73-104.
`replaceCard` is the outcome of the remote `stripe_replace_card` call (its
success carries the attached card's summary, a `CardError` is `.error`);
`retryInvoice` is the outcome of `stripe_retry_latest_invoice`. Requires a
subscription reference and `payment_state = REQUIRES_PAYMENT_METHOD`; cures
only when the retried invoice reports `paid`; an invoice left unpaid without
a card error still returns success with the customer unchanged. -/
def cureFailedCard (c : Customer) (replaceCard : Except String CCInfo)
    (retryInvoice : Except String RetryInvoiceResult) :
    Customer × Except String Unit :=
  if c.subscription_id.isSome && c.payment_state == .REQUIRES_PAYMENT_METHOD then
    match replaceCard with
    | .error msg => (c, .error msg)
    | .ok card =>
      let c := { c with cc_info := some card }
      match retryInvoice with
      | .error msg => (c, .error msg)
      | .ok inv =>
        if inv.status == "paid" then
          ({ c with current_period_end := some inv.period_end,
                    payment_state := .OK }, .ok ())
        else (c, .ok ())
  else (c, .error "You cannot cure a failed payment for this customer.")

/-- Modelled from the spec: `Customer.cancel_subscription`
(`billing/models.py`, not among the available sources), following spec
section 4.4: when payment is already OFF, signal failure without mutating;
otherwise set `payment_state = OFF`, leaving the subscription reference and
period-end untouched. -/
def Customer.cancel_subscription (c : Customer) : Customer × Bool :=
  if c.payment_state == .OFF then (c, false)
  else ({ c with payment_state := .OFF }, true)

/-- `CancelSubscriptionAPIView.post`, `billing/views/api.py` lines 107-114:
fail with a `ValidationError` when `cancel_subscription` signals failure. -/
def cancelSubscriptionView (c : Customer) : Customer × Except String Unit :=
  match c.cancel_subscription with
  | (c, false) => (c, .error "No active subscription to cancel.")
  | (c, true) => (c, .ok ())

/-- `ReactivateSubscriptionAPIView.post`, `billing/views/api.py` lines
117-129: only valid in the `paid.will_cancel` state; sets
`payment_state = OK`, leaving everything else untouched. -/
def reactivateSubscription (c : Customer) (now : Int) : Customer × Except String Unit :=
  if c.state now == "paid.will_cancel" then
    ({ c with payment_state := .OK }, .ok ())
  else (c, .error "You cannot reactivate this subscription.")

/-- `ReplaceCardAPIView.post`, `billing/views/api.py` lines 132-156:
requires a subscription reference and payment not OFF; on remote success
records the new card summary. -/
def replaceCard (c : Customer) (replace : Except String CCInfo) :
    Customer × Except String Unit :=
  if c.subscription_id.isSome && !(c.payment_state == .OFF) then
    match replace with
    | .error msg => (c, .error msg)
    | .ok card => ({ c with cc_info := some card }, .ok ())
  else (c, .error "You cannot replace card for this customer.")

/-- A sample free-default plan for concrete instantiations. -/
def freePlanEx : Plan := ⟨1, .FREE_DEFAULT⟩

/-- A sample paid plan for concrete instantiations. -/
def paidPlanEx : Plan := ⟨2, .PAID_PUBLIC⟩

/-- A sample paying customer. -/
def custEx : Customer :=
  { pk := 1, subscription_id := some "sub_1", customer_id := some "cus_1",
    payment_state := .OK, current_period_end := some 200,
    plan := paidPlanEx, cc_info := none }

/-- A sample customer whose subscription will cancel at period end. -/
def custWC : Customer :=
  { pk := 2, subscription_id := some "sub_2", customer_id := some "cus_2",
    payment_state := .OFF, current_period_end := some 400,
    plan := paidPlanEx, cc_info := none }

/-- A sample customer on the free-default plan with no billing history. -/
def custFree : Customer :=
  { pk := 3, subscription_id := none, customer_id := none,
    payment_state := .OFF, current_period_end := none,
    plan := freePlanEx, cc_info := none }

/-- A sample customer awaiting a cure of a failed payment. -/
def custRPM : Customer :=
  { pk := 4, subscription_id := some "sub_4", customer_id := some "cus_4",
    payment_state := .REQUIRES_PAYMENT_METHOD, current_period_end := some 100,
    plan := paidPlanEx, cc_info := none }

/-- A sample subscription status-changed event: permanent cancellation. -/
def evCanceled : StripeEvent :=
  { id := "evt_w2", type := "customer.subscription.deleted",
    payload := some { id := some "sub_1", status := some "canceled" } }

/-- A sample renewal event for `custEx`. -/
def evRenewal : StripeEvent :=
  { id := "evt_w3", type := "invoice.paid",
    payload := some { billing_reason := some "subscription_cycle",
                      subscription := some "sub_1", period_end := some 500 } }

/-- A sample limit table: the paid plan overrides Limit 1 with 1, the
free-default plan overrides it with 50, and its global default is 99. -/
def bdbEx : BillingDb :=
  { plans := [freePlanEx, paidPlanEx],
    limits := [⟨"Limit 1", 99⟩],
    plan_limits := [⟨2, "Limit 1", 1⟩, ⟨1, "Limit 1", 50⟩] }

/-- A sample card summary. -/
def cardEx : CCInfo := ⟨"visa", "1111", 11, 2030⟩

/-- A sample retried invoice that did not get paid. -/
def invOpen : RetryInvoiceResult := ⟨"open", 900⟩

lemma objectsGet_ok_iff (p : Customer → Bool) (db : List Customer) (c : Customer) :
    objectsGet p db = .ok c ↔ db.filter p = [c] := by
  unfold objectsGet
  rcases h : db.filter p with _ | ⟨a, _ | ⟨b, l⟩⟩ <;> simp

lemma dispatch_ok_status (db : List Customer) (e : StripeEvent)
    (db' : List Customer) (e' : StripeEvent)
    (h : dispatch db e = .ok (db', e')) :
    e'.status = .PROCESSED ∨ e'.status = .ERROR := by
  unfold dispatch at h
  repeat' split at h
  all_goals simp_all
  all_goals (rw [← h.2]; simp)

lemma process_eq (db : List Customer) (event : StripeEvent) :
    process_stripe_event db event =
      match dispatch db { event with status := .PENDING } with
      | .ok (dbOut, e) => (dbOut, e)
      | .error msg => (db, { event with status := .ERROR, info := some msg }) := rfl

lemma filter_singleton_mem {p : Customer → Bool} {db : List Customer} {c : Customer}
    (h : db.filter p = [c]) : c ∈ db ∧ p c = true := by
  have hm : c ∈ db.filter p := by rw [h]; simp
  exact ⟨List.mem_of_mem_filter hm, List.of_mem_filter hm⟩

lemma filter_singleton_unique {p : Customer → Bool} {db : List Customer} {c : Customer}
    (h : db.filter p = [c]) {y : Customer} (hy : y ∈ db) (hpy : p y = true) : y = c := by
  have hm : y ∈ db.filter p := List.mem_filter.mpr ⟨hy, hpy⟩
  rw [h] at hm
  simpa using hm

lemma dbSave_idem (db : List Customer) (c : Customer) :
    dbSave (dbSave db c) c = dbSave db c := by
  unfold dbSave
  rw [List.map_map]
  apply List.map_congr_left
  intro x _
  by_cases h : x.pk = c.pk
  · simp [h]
  · simp [h]

lemma mem_dbSave {db : List Customer} {c x : Customer} (h : x ∈ dbSave db c) :
    x = c ∨ x ∈ db := by
  unfold dbSave at h
  obtain ⟨y, hy, hfy⟩ := List.mem_map.mp h
  by_cases hpk : y.pk = c.pk
  · left; rw [← hfy]; simp [hpk]
  · right; rw [← hfy]; simpa [hpk] using hy

lemma objectsGet_ok_mem {p : Customer → Bool} {db : List Customer} {c : Customer}
    (h : objectsGet p db = .ok c) : c ∈ db ∧ p c = true :=
  filter_singleton_mem ((objectsGet_ok_iff _ _ _).mp h)

lemma state_will_cancel_sub {c : Customer} {now : Int}
    (h : c.state now = "paid.will_cancel") : c.subscription_id.isSome = true := by
  obtain ⟨pk, sub, cid, ps, cpe, ⟨pid, pt⟩, cc⟩ := c
  cases pt <;> cases ps <;> rcases cpe with _ | t <;> rcases sub with _ | s <;>
    simp only [Customer.state, freeDefaultBucketState] at h <;>
    (try split at h) <;> (try split at h) <;> simp_all

lemma dispatch_preserves_invariant {db : List Customer} {e : StripeEvent}
    {db' : List Customer} {e' : StripeEvent}
    (h : dispatch db e = .ok (db', e'))
    (hdb : ∀ c ∈ db, customerInvariant c) :
    ∀ x ∈ db', customerInvariant x := by
  intro x hx
  unfold dispatch at h
  repeat' split at h
  all_goals simp_all
  all_goals obtain ⟨h1, h2⟩ := h
  all_goals rw [← h1] at hx
  all_goals
    first
      | exact hdb _ hx
      | ((rcases mem_dbSave hx with rfl | hc) <;>
          first
            | exact hdb _ hc
            | (intro hne;
               first
                 | exact absurd rfl hne
                 | (have hm := objectsGet_ok_mem (by assumption : objectsGet _ _ = Except.ok _);
                    have hinv := hdb _ hm.1;
                    first
                      | exact hinv hne
                      | simp_all)))

/-- C1: the event processor never lets a fault escape. For every inbound
event, the event record returned by `process_stripe_event` carries a
terminal status, PROCESSED or ERROR; and whenever dispatch raises, the
fault is converted into the ERROR status with the exception detail stored
as the diagnostic, the customer table untouched, and the function returns
normally. -/
theorem c1_processor_terminal_status (db : List Customer) (event : StripeEvent) :
    ((process_stripe_event db event).2.status = .PROCESSED ∨
     (process_stripe_event db event).2.status = .ERROR) ∧
    (∀ msg, dispatch db { event with status := .PENDING } = .error msg →
      process_stripe_event db event =
        (db, { event with status := .ERROR, info := some msg })) := by
  constructor
  · rw [process_eq]
    rcases h : dispatch db { event with status := .PENDING } with msg | ⟨db', e'⟩
    · simp
    · simpa using dispatch_ok_status _ _ _ _ h
  · intro msg h
    rw [process_eq, h]

theorem c1_processor_terminal_status_witness :
    process_stripe_event [] { id := "evt_w1", type := "invoice.paid" } =
      ([], { id := "evt_w1", type := "invoice.paid", status := .ERROR,
             info := some "KeyError: data.object" }) :=
  (c1_processor_terminal_status [] { id := "evt_w1", type := "invoice.paid" }).2
    "KeyError: data.object" rfl

/-- C2: a subscription status-changed event (type
customer.subscription.updated or customer.subscription.deleted) whose
subscription reference matches a Customer finishes PROCESSED, and: a
past_due payload status sets paymentState to REQUIRES_PAYMENT_METHOD; a
canceled or incomplete_expired status clears subscriptionId and sets
paymentState to OFF; any other status mutates no Customer and records an
informational note. -/
theorem c2_subscription_status_event (db : List Customer) (event : StripeEvent)
    (obj : PayloadObject) (sid st : String) (c : Customer)
    (htype : event.type = "customer.subscription.updated" ∨
             event.type = "customer.subscription.deleted")
    (hpayload : event.payload = some obj)
    (hid : obj.id = some sid) (hst : obj.status = some st)
    (hmatch : db.filter (fun x => x.subscription_id == some sid) = [c]) :
    (process_stripe_event db event).2.status = .PROCESSED ∧
    (st = "past_due" →
      (process_stripe_event db event).1 =
        dbSave db { c with payment_state := .REQUIRES_PAYMENT_METHOD }) ∧
    (st = "canceled" ∨ st = "incomplete_expired" →
      (process_stripe_event db event).1 =
        dbSave db { c with subscription_id := none, payment_state := .OFF }) ∧
    (st ≠ "past_due" → st ≠ "canceled" → st ≠ "incomplete_expired" →
      (process_stripe_event db event).1 = db ∧
      (process_stripe_event db event).2.info =
        some "Payload \x27status\x27 is not actionable. No action was taken.") := by
  have hget : objectsGet (fun x => x.subscription_id == some sid) db = .ok c :=
    (objectsGet_ok_iff _ _ _).mpr hmatch
  have hne : event.type ≠ "invoice.paid" := by
    rcases htype with h | h <;> rw [h] <;> decide
  rw [process_eq]
  unfold dispatch
  simp only [StripeEvent.mk.injEq]
  rcases htype with h | h <;>
    simp [h, hpayload, hid, hst, hget, requireKey] <;>
    rcases eq_or_ne st "past_due" with h1 | h1 <;>
    rcases eq_or_ne st "canceled" with h2 | h2 <;>
    rcases eq_or_ne st "incomplete_expired" with h3 | h3 <;>
    simp_all

theorem c2_subscription_status_event_witness :
    (process_stripe_event [custEx] evCanceled).1 =
      dbSave [custEx] { custEx with subscription_id := none, payment_state := .OFF } ∧
    (process_stripe_event [custEx] evCanceled).2.status = .PROCESSED := by
  have h := c2_subscription_status_event [custEx] evCanceled
    { id := some "sub_1", status := some "canceled" } "sub_1" "canceled" custEx
    (Or.inr rfl) rfl rfl rfl (by decide)
  exact ⟨h.2.2.1 (Or.inl rfl), h.1⟩

/-- C3: a renewal event (type invoice.paid) with billing_reason
subscription_cycle whose subscription reference matches a Customer updates
that Customer to the new period-end and finishes PROCESSED; with any other
billing reason it mutates nothing and still finishes PROCESSED, never
ERROR. -/
theorem c3_renewal_event (db : List Customer) (event : StripeEvent)
    (obj : PayloadObject) (br : String)
    (htype : event.type = "invoice.paid")
    (hpayload : event.payload = some obj)
    (hbr : obj.billing_reason = some br) :
    (∀ sid pe c, br = "subscription_cycle" →
      obj.subscription = some sid → obj.period_end = some pe →
      db.filter (fun x => x.subscription_id == some sid) = [c] →
      process_stripe_event db event =
        (dbSave db { c with current_period_end := some pe },
         { event with status := .PROCESSED })) ∧
    (br ≠ "subscription_cycle" →
      (process_stripe_event db event).1 = db ∧
      (process_stripe_event db event).2.status = .PROCESSED) := by
  constructor
  · intro sid pe c hcycle hsub hpe hmatch
    have hget : objectsGet (fun x => x.subscription_id == some sid) db = .ok c :=
      (objectsGet_ok_iff _ _ _).mpr hmatch
    rw [process_eq]
    unfold dispatch
    simp [htype, hpayload, hbr, hcycle, hsub, hpe, hget, requireKey]
  · intro hne
    rw [process_eq]
    unfold dispatch
    simp [htype, hpayload, hbr, hne, requireKey]

theorem c3_renewal_event_witness :
    process_stripe_event [custEx] evRenewal =
      (dbSave [custEx] { custEx with current_period_end := some 500 },
       { evRenewal with status := .PROCESSED }) :=
  (c3_renewal_event [custEx] evRenewal
      { billing_reason := some "subscription_cycle",
        subscription := some "sub_1", period_end := some 500 }
      "subscription_cycle" rfl rfl rfl).1
    "sub_1" 500 custEx rfl rfl rfl (by decide)

/-- C4: the state derivation function is pure and total: for every
combination of plan, paymentState, currentPeriodEnd and subscriptionId it
evaluates to exactly one label from the closed label set (including the
unknown catch-all) and never throws. -/
theorem c4_derive_state_total (c : Customer) (now : Int) :
    c.state now ∈ stateLabels := by
  obtain ⟨pk, sub, cid, ps, cpe, ⟨pid, pt⟩, cc⟩ := c
  cases pt <;> cases ps <;> rcases cpe with _ | t <;> rcases sub with _ | s <;>
    simp only [Customer.state, freeDefaultBucketState] <;>
    (try split) <;> (try split) <;> simp [stateLabels]

/-- C5: limit resolution fails with NotFoundError exactly when no Limit
with the requested name exists anywhere; otherwise it returns the
PlanLimit value for (effectivePlan, name) when one exists and the global
default otherwise, where the effective plan is the FREE_DEFAULT plan
precisely when the plan is expired-PAID or expired-FREE_PRIVATE, with an
absent period-end counting as expired for PAID_PUBLIC but not for
FREE_PRIVATE. -/
theorem c5_get_limit_resolution (db : BillingDb) (c : Customer) (n : String)
    (now : Int) (fd : Plan) (hfd : freeDefaultPlan db = some fd) :
    (planExpired c now = true ↔
      (c.plan.type = .PAID_PUBLIC ∧
        (c.current_period_end = none ∨
         ∃ t, c.current_period_end = some t ∧ t ≤ now)) ∨
      (c.plan.type = .FREE_PRIVATE ∧
        ∃ t, c.current_period_end = some t ∧ t ≤ now)) ∧
    (db.limits.find? (fun l => l.name == n) = none →
      Customer.get_limit db c n now = .error "Limit matching query does not exist.") ∧
    (∀ l, db.limits.find? (fun l => l.name == n) = some l →
      Customer.get_limit db c n now =
        match db.plan_limits.find? (fun pl =>
            pl.plan_id == (if planExpired c now then fd else c.plan).id
            && pl.limit_name == n) with
        | some pl => .ok pl.value
        | none => .ok l.default) := by
  refine ⟨?_, ?_, ?_⟩
  · unfold planExpired
    rcases hc : c.plan.type <;> rcases ht : c.current_period_end with _ | t <;>
      simp [hc, ht]
  · intro h
    unfold Customer.get_limit
    rw [h]
  · intro l h
    unfold Customer.get_limit effectivePlan
    rw [h, hfd]
    simp

theorem c5_get_limit_resolution_witness :
    Customer.get_limit bdbEx custEx "Limit 1" 300 = .ok 50 := by
  have h := (c5_get_limit_resolution bdbEx custEx "Limit 1" 300 freePlanEx rfl).2.2
    ⟨"Limit 1", 99⟩ (by decide)
  rw [h]
  rfl

/-- C6: the invariant that a paymentState other than OFF implies a present
subscriptionId: the storage-layer constraint accepts a Customer exactly
when the invariant holds, the event processor preserves it across every
event, and each command handler (create, cure, cancel, reactivate,
replace card) preserves it. -/
theorem c6_payment_state_invariant :
    (∀ c : Customer, paymentStateConstraint c = true ↔ customerInvariant c) ∧
    (∀ (db : List Customer) (e : StripeEvent),
      (∀ c ∈ db, customerInvariant c) →
      ∀ x ∈ (process_stripe_event db e).1, customerInvariant x) ∧
    (∀ (c : Customer) (plan : Plan) (sub : RemoteSubscription),
      customerInvariant (createSubscription c plan sub).1) ∧
    (∀ (c : Customer) (r : Except String CCInfo) (i : Except String RetryInvoiceResult),
      customerInvariant c → customerInvariant (cureFailedCard c r i).1) ∧
    (∀ c : Customer, customerInvariant c.cancel_subscription.1) ∧
    (∀ (c : Customer) (now : Int),
      customerInvariant c → customerInvariant (reactivateSubscription c now).1) ∧
    (∀ (c : Customer) (r : Except String CCInfo),
      customerInvariant c → customerInvariant (replaceCard c r).1) := by
  refine ⟨?_, ?_, ?_, ?_, ?_, ?_, ?_⟩
  · intro c
    unfold paymentStateConstraint customerInvariant
    rcases hps : c.payment_state <;> rcases hs : c.subscription_id <;> simp [hps, hs]
  · intro db e hdb x hx
    rw [process_eq] at hx
    rcases h : dispatch db { e with status := .PENDING } with msg | ⟨db', e'⟩
    · rw [h] at hx
      exact hdb _ hx
    · rw [h] at hx
      exact dispatch_preserves_invariant h hdb x hx
  · intro c plan sub
    unfold createSubscription
    by_cases h : sub.status == "active" <;> simp [h, customerInvariant]
  · intro c r i hc
    unfold cureFailedCard
    by_cases h : c.subscription_id.isSome && c.payment_state == .REQUIRES_PAYMENT_METHOD
    · rcases r with msg | card
      · simpa [h] using hc
      · rcases i with msg | inv
        · simp only [h, if_pos]
          intro hne
          simpa using (Bool.and_elim_left h)
        · by_cases hp : inv.status == "paid" <;>
            · simp only [h, if_pos, hp]
              intro hne
              simpa using (Bool.and_elim_left h)
    · simpa [h] using hc
  · intro c
    unfold Customer.cancel_subscription
    by_cases h : c.payment_state == .OFF
    · simpa [h, customerInvariant] using fun hne => absurd (by simpa using h) hne
    · simp [h, customerInvariant]
  · intro c now hc
    unfold reactivateSubscription
    by_cases h : c.state now == "paid.will_cancel"
    · simp only [h, if_pos]
      intro _
      have hs := state_will_cancel_sub (show c.state now = "paid.will_cancel" by simpa using h)
      simpa using hs
    · simpa [h] using hc
  · intro c r hc
    unfold replaceCard
    by_cases h : c.subscription_id.isSome && !(c.payment_state == .OFF)
    · rcases r with msg | card
      · simpa [h] using hc
      · simp only [h, if_pos]
        intro _
        simpa using (Bool.and_elim_left h)
    · simpa [h] using hc

theorem c6_payment_state_invariant_witness :
    customerInvariant (reactivateSubscription custWC 300).1 ∧
    customerInvariant (cureFailedCard custRPM (.ok cardEx) (.ok invOpen)).1 :=
  ⟨c6_payment_state_invariant.2.2.2.2.2.1 custWC 300 (by decide),
   c6_payment_state_invariant.2.2.2.1 custRPM (.ok cardEx) (.ok invOpen) (by decide)⟩

/-- C7: the create-subscription handler, after the remote subscription has
been created: on remote status active it sets paymentState OK and the
period-end from the remote value and succeeds; on any other remote status
it sets paymentState REQUIRES_PAYMENT_METHOD, clears the period-end, and
fails with the payment-could-not-be-processed ValidationError, while the
subscriptionId and plan remain persisted in both cases. -/
theorem c7_create_subscription_outcome (c : Customer) (plan : Plan)
    (sub : RemoteSubscription) :
    ((createSubscription c plan sub).1.subscription_id = some sub.id ∧
     (createSubscription c plan sub).1.plan = plan) ∧
    (sub.status = "active" →
      createSubscription c plan sub =
        ({ c with
            subscription_id := some sub.id, plan := plan,
            current_period_end := some sub.current_period_end,
            payment_state := .OK }, .ok ())) ∧
    (sub.status ≠ "active" →
      createSubscription c plan sub =
        ({ c with
            subscription_id := some sub.id, plan := plan,
            current_period_end := none,
            payment_state := .REQUIRES_PAYMENT_METHOD },
         .error "Payment could not be processed. Please try again or use another card.")) := by
  unfold createSubscription
  by_cases h : sub.status = "active" <;> simp [h]

theorem c7_create_subscription_outcome_witness :
    createSubscription custFree paidPlanEx ⟨"sub_paid", "incomplete", 0⟩ =
      ({ custFree with
          subscription_id := some "sub_paid", plan := paidPlanEx,
          current_period_end := none,
          payment_state := .REQUIRES_PAYMENT_METHOD },
       .error "Payment could not be processed. Please try again or use another card.") :=
  (c7_create_subscription_outcome custFree paidPlanEx ⟨"sub_paid", "incomplete", 0⟩).2.2
    (by decide)

/-- C8: renewal events are idempotent: processing the same invoice.paid
event twice leaves the customer table after the second application
identical to the table after the first. -/
theorem c8_renewal_idempotent (db : List Customer) (event : StripeEvent)
    (htype : event.type = "invoice.paid") :
    (process_stripe_event (process_stripe_event db event).1 event).1 =
      (process_stripe_event db event).1 := by
  rcases hp : event.payload with _ | obj
  · simp [process_eq, dispatch, htype, hp, requireKey]
  · rcases hbr : obj.billing_reason with _ | br
    · simp [process_eq, dispatch, htype, hp, hbr, requireKey]
    · by_cases hcy : br = "subscription_cycle"
      · rcases hsub : obj.subscription with _ | sid
        · simp [process_eq, dispatch, htype, hp, hbr, hcy, hsub, requireKey]
        · rcases hpe : obj.period_end with _ | pe
          · rcases hget : objectsGet (fun x => x.subscription_id == some sid) db with msg | c <;>
              simp [process_eq, dispatch, htype, hp, hbr, hcy, hsub, hpe, hget, requireKey]
          · rcases hget : objectsGet (fun x => x.subscription_id == some sid) db with msg | c
            · simp [process_eq, dispatch, htype, hp, hbr, hcy, hsub, hpe, hget, requireKey]
            · have hfilter : db.filter (fun x => x.subscription_id == some sid) = [c] :=
                (objectsGet_ok_iff _ _ _).mp hget
              set c' : Customer := { c with current_period_end := some pe } with hc'
              rcases hget2 : objectsGet (fun x => x.subscription_id == some sid) (dbSave db c')
                with msg2 | c2
              · simp [process_eq, dispatch, htype, hp, hbr, hcy, hsub, hpe, hget, hget2, requireKey]
              · have hfilter2 : (dbSave db c').filter (fun x => x.subscription_id == some sid) = [c2] :=
                  (objectsGet_ok_iff _ _ _).mp hget2
                have hc2 : c2 = c' := by
                  obtain ⟨hmem2, hp2⟩ := filter_singleton_mem hfilter2
                  unfold dbSave at hmem2
                  obtain ⟨y, hy, hfy⟩ := List.mem_map.mp hmem2
                  by_cases hpk : y.pk = c'.pk
                  · rw [if_pos (by simpa using hpk)] at hfy
                    exact hfy.symm
                  · rw [if_neg (by simpa using hpk)] at hfy
                    subst hfy
                    have hyc := filter_singleton_unique hfilter hy hp2
                    subst hyc
                    exact absurd rfl hpk
                subst hc2
                have hsame : ({ c' with current_period_end := some pe } : Customer) = c' := rfl
                simp [process_eq, dispatch, htype, hp, hbr, hcy, hsub, hpe, hget, hget2,
                      requireKey, hsame, dbSave_idem]
      · simp [process_eq, dispatch, htype, hp, hbr, hcy, requireKey]

theorem c8_renewal_idempotent_witness :
    (process_stripe_event (process_stripe_event [custEx] evRenewal).1 evRenewal).1 =
      (process_stripe_event [custEx] evRenewal).1 :=
  c8_renewal_idempotent [custEx] evRenewal rfl

/-- C9: an event whose type is none of the recognized kinds mutates no
Customer and finishes with status ERROR and a diagnostic naming the
unrecognized kind. -/
theorem c9_unrecognized_event (db : List Customer) (event : StripeEvent)
    (h1 : event.type ≠ "invoice.paid")
    (h2 : event.type ≠ "customer.subscription.updated")
    (h3 : event.type ≠ "customer.subscription.deleted")
    (h4 : event.type ≠ "payment_method.automatically_updated") :
    process_stripe_event db event =
      (db, { event with
              status := .ERROR,
              info := some ("StripeEvent type \x27" ++ event.type ++ "\x27 not recognized.") }) := by
  rw [process_eq]
  unfold dispatch
  simp [h1, h2, h3, h4]

theorem c9_unrecognized_event_witness :
    process_stripe_event [custEx] { id := "evt_w9", type := "bad.type" } =
      ([custEx], { id := "evt_w9", type := "bad.type", status := .ERROR,
                   info := some "StripeEvent type \x27bad.type\x27 not recognized." }) :=
  c9_unrecognized_event [custEx] { id := "evt_w9", type := "bad.type" }
    (by decide) (by decide) (by decide) (by decide)

/-- C10: the cure-failed-card handler, when its precondition holds and the
remote retry raises no card error but the invoice is still not paid,
returns success to the caller while paymentState stays
REQUIRES_PAYMENT_METHOD and currentPeriodEnd is unchanged. -/
theorem c10_cure_unpaid_success (c : Customer) (card : CCInfo)
    (inv : RetryInvoiceResult)
    (hsub : c.subscription_id.isSome = true)
    (hps : c.payment_state = .REQUIRES_PAYMENT_METHOD)
    (hinv : inv.status ≠ "paid") :
    (cureFailedCard c (.ok card) (.ok inv)).2 = .ok () ∧
    (cureFailedCard c (.ok card) (.ok inv)).1.payment_state = .REQUIRES_PAYMENT_METHOD ∧
    (cureFailedCard c (.ok card) (.ok inv)).1.current_period_end = c.current_period_end := by
  unfold cureFailedCard
  simp [hsub, hps, hinv]

theorem c10_cure_unpaid_success_witness :
    (cureFailedCard custRPM (.ok cardEx) (.ok invOpen)).2 = .ok () ∧
    (cureFailedCard custRPM (.ok cardEx) (.ok invOpen)).1.payment_state =
      .REQUIRES_PAYMENT_METHOD ∧
    (cureFailedCard custRPM (.ok cardEx) (.ok invOpen)).1.current_period_end =
      custRPM.current_period_end :=
  c10_cure_unpaid_success custRPM cardEx invOpen (by decide) rfl (by decide)
